import Mathlib

/-!
Shallow embedding of the two icon-generator scripts
`create_icons.py` (variant A: RGBA canvas, per-name colors, text label)
and `create_product_icons.py` (variant B: RGB canvas, fixed colors, no
text), together with proofs of the specification claims about them.

Modelling conventions:
* A pixel color is an `RGBA` quadruple of channel values.  PIL's `RGB`
  mode is embedded with alpha 255 (an RGB PNG decodes as fully opaque).
* An image is its size together with a pixel function.
* `ImageDraw.rectangle([x0,y0,x1,y1], fill, outline, width)` fills the
  inclusive box `[x0..x1] × [y0..y1]` and draws the outline `width`
  pixels deep, inward from the box edges (PIL's documented behaviour).
* `ImageDraw.text` paints the fill color on the pixels covered by the
  rendered glyphs.  The glyph raster comes from the imaging library's
  default font, which is not part of this repository, so the glyph
  coverage is kept as an explicit parameter `Font` of the model.
* Each script's observable behaviour is a list of `Event`s (directory
  creation, file writes, progress prints) in program order; a filesystem
  is a partial map from paths to images and a run folds the events over
  it.  PNG encoding/decoding is out of scope: a saved file is modelled
  as holding the image (whose size is the PNG's pixel dimensions).
-/

/-- A pixel color: red, green, blue, alpha channel values. -/
structure RGBA where
  r : Nat
  g : Nat
  b : Nat
  a : Nat
deriving DecidableEq, Repr

/-- An RGB triple as written in the Python sources. -/
abbrev RGBTriple := Nat × Nat × Nat

/-- A fill color given as an RGB triple is drawn fully opaque (PIL
treats a missing alpha component as 255). -/
def rgb (c : RGBTriple) : RGBA :=
  ⟨c.1, c.2.1, c.2.2, 255⟩

/-- A raster image: its dimensions and its pixel function. -/
structure Image where
  width : Nat
  height : Nat
  pix : Nat → Nat → RGBA

/-- Embedding of `Image.new(mode, (w, h), color)`: a constant canvas. -/
def imageNew (w h : Nat) (c : RGBA) : Image :=
  ⟨w, h, fun _ _ => c⟩

/-- Glyph coverage of the imaging library's text rasterizer: given the
string being drawn, tells which offsets (relative to the text anchor)
receive ink.  The default font's bitmaps are external to the repository,
so the model is parametric in this. -/
abbrev Font := String → Int → Int → Bool

/-- The drawing calls issued on a canvas by one loop iteration. -/
inductive DrawOp where
  | rect (x0 y0 x1 y1 : Nat) (fill : RGBA) (outline : RGBA) (lineWidth : Nat)
  | text (x y : Int) (s : String) (fill : RGBA)
deriving Repr

/-- Whether a drawing call is a `draw.rectangle` call. -/
def DrawOp.isRect : DrawOp → Bool
  | .rect _ _ _ _ _ _ _ => true
  | .text _ _ _ _ => false

/-- Semantics of one drawing call, following PIL: a rectangle fills the
inclusive box and draws its outline `lineWidth` pixels deep inward from
the box edges; text paints its fill color on the glyph-covered pixels. -/
def applyOp (font : Font) (img : Image) : DrawOp → Image
  | .rect x0 y0 x1 y1 f o w =>
      { img with pix := fun x y =>
          if x0 ≤ x ∧ x ≤ x1 ∧ y0 ≤ y ∧ y ≤ y1 then
            if x < x0 + w ∨ x1 < x + w ∨ y < y0 + w ∨ y1 < y + w then o else f
          else img.pix x y }
  | .text tx ty s f =>
      { img with pix := fun x y =>
          if font s ((x : Int) - tx) ((y : Int) - ty) then f else img.pix x y }

/- ### Python string helpers used by `create_icons.py` -/

/-- Fuel-driven core of Python's `str.replace`: scan left to right and
replace non-overlapping occurrences of `pat` by `repl`.  The fuel is the
length of the scanned list, enough since every step consumes at least
one character (the sources only call it with a non-empty pattern). -/
def replaceGo (pat repl : List Char) : Nat → List Char → List Char
  | 0, s => s
  | _ + 1, [] => []
  | fuel + 1, c :: rest =>
      if pat.isPrefixOf (c :: rest) && !pat.isEmpty then
        repl ++ replaceGo pat repl fuel (List.drop (pat.length - 1) rest)
      else
        c :: replaceGo pat repl fuel rest

/-- Embedding of Python's `s.replace(pat, repl)` (all occurrences). -/
def pyReplace (s pat repl : String) : String :=
  ⟨replaceGo pat.data repl.data s.data.length s.data⟩

/-- Core of Python's `str.title` on ASCII text: a letter that follows a
non-letter is uppercased, a letter that follows a letter is lowercased,
other characters are kept and restart a word. -/
def titleGo : Bool → List Char → List Char
  | _, [] => []
  | prevAlpha, c :: rest =>
      if c.isAlpha then
        (if prevAlpha then c.toLower else c.toUpper) :: titleGo true rest
      else
        c :: titleGo false rest

/-- Embedding of Python's `s.title()` (the sources only feed it ASCII). -/
def pyTitle (s : String) : String :=
  ⟨titleGo false s.data⟩

/- ### create_icons.py (variant A) -/

/-- The fixed icon-name list of `create_icons.py`. -/
def iconsA : List String :=
  ["hobo_cape_icon", "cool_shades_icon", "cardboard_armor_icon", "extra_life_icon"]

/-- The color table of `create_icons.py` (`colors = {...}`). -/
def colors : List (String × RGBTriple) :=
  [("hobo_cape_icon", (120, 120, 120)),
   ("cool_shades_icon", (50, 50, 50)),
   ("cardboard_armor_icon", (160, 120, 80)),
   ("extra_life_icon", (200, 50, 50))]

/-- Embedding of `colors.get(icon_name, (100, 100, 100))`. -/
def colorOf (n : String) : RGBTriple :=
  (colors.lookup n).getD (100, 100, 100)

/-- Embedding of `display_name = icon_name.replace("_icon", "").replace("_", " ").title()`. -/
def display_name (n : String) : String :=
  pyTitle (pyReplace (pyReplace n "_icon" "") "_" " ")

/-- Embedding of `text_width = len(display_name) * 10`. -/
def text_width (s : String) : Int :=
  (s.length : Int) * 10

/-- Embedding of `text_x = (256 - text_width) // 2` (Python floor division). -/
def text_x (s : String) : Int :=
  Int.fdiv (256 - text_width s) 2

/-- Embedding of `text_y = 128 - 10`. -/
def text_y : Int := 128 - 10

/-- The drawing calls one iteration of `create_icons.py` issues, in
program order: one `draw.rectangle` and one `draw.text`. -/
def drawOpsA (n : String) : List DrawOp :=
  [ .rect 20 20 236 236 (rgb (colorOf n)) (rgb (255, 255, 255)) 5,
    .text (text_x (display_name n)) text_y (display_name n) (rgb (255, 255, 255)) ]

/-- The image `create_icons.py` builds for one name: a 256×256 fully
transparent RGBA canvas with the drawing calls applied in order. -/
def imageA (font : Font) (n : String) : Image :=
  (drawOpsA n).foldl (applyOp font) (imageNew 256 256 ⟨0, 0, 0, 0⟩)

/-- Embedding of `os.path.join("assets/product_icons", f"{icon_name}.png")`
and of variant B's f-string path, which agree. -/
def pathOf (n : String) : String :=
  "assets/product_icons/" ++ n ++ ".png"

/- ### Observable events of a run -/

/-- One observable side effect of a script, in program order. -/
inductive Event where
  | mkdirs (path : String)
  | save (path : String) (img : Image)
  | print (msg : String)

/-- Whether an event is a directory creation. -/
def Event.isMkdirs : Event → Bool
  | .mkdirs _ => true
  | _ => false

/-- The full event trace of `create_icons.py`: create the output
directory, then for each name in list order save the image and print a
progress line, then print the completion line. -/
def traceA (font : Font) : List Event :=
  Event.mkdirs "assets/product_icons" ::
    (iconsA.flatMap fun n =>
      [Event.save (pathOf n) (imageA font n),
       Event.print ("Created " ++ pathOf n)]) ++
    [Event.print "All product icons created successfully!"]

/- ### create_product_icons.py (variant B) -/

/-- The fixed icon-name list of `create_product_icons.py`. -/
def iconsB : List String :=
  ["hobo_cape_icon", "cool_shades_icon", "cardboard_armor_icon", "extra_life_icon"]

/-- The single drawing call of one iteration of `create_product_icons.py`. -/
def drawOpsB : List DrawOp :=
  [ .rect 50 50 206 206 (rgb (70, 90, 150)) (rgb (255, 255, 255)) 3 ]

/-- A font is irrelevant to variant B, which draws no text. -/
def noFont : Font := fun _ _ _ => false

/-- The image `create_product_icons.py` builds for one name: a 256×256
opaque blue RGB canvas with the rectangle drawn on it.  The loop body
does not use the icon name when drawing, only in the output path. -/
def imageB (_ : String) : Image :=
  drawOpsB.foldl (applyOp noFont) (imageNew 256 256 (rgb (100, 150, 200)))

/-- The full event trace of `create_product_icons.py`. -/
def traceB : List Event :=
  Event.mkdirs "assets/product_icons" ::
    (iconsB.flatMap fun n =>
      [Event.print ("Creating " ++ n),
       Event.save (pathOf n) (imageB n),
       Event.print ("Saved " ++ pathOf n)]) ++
    [Event.print "All product icons created successfully!"]

/- ### Filesystem semantics -/

/-- A filesystem: a partial map from paths to saved images. -/
abbrev FS := String → Option Image

/-- Effect of one event on the filesystem: `img.save(path)` writes the
file, overwriting any existing one; directory creation and printing do
not change any file. -/
def applyEvent (fs : FS) : Event → FS
  | .save p img => fun q => if q = p then some img else fs q
  | _ => fs

/-- Running a trace: fold its events over the filesystem. -/
def applyEvents (fs : FS) (t : List Event) : FS :=
  t.foldl applyEvent fs

/-- The filesystem after a complete run of `create_icons.py`. -/
def runA (font : Font) (fs : FS) : FS :=
  applyEvents fs (traceA font)

/-- The filesystem after a complete run of `create_product_icons.py`. -/
def runB (fs : FS) : FS :=
  applyEvents fs traceB

/-- The paths written by a trace, in write order. -/
def savePaths (t : List Event) : List String :=
  t.filterMap fun e =>
    match e with
    | .save p _ => some p
    | _ => none

/-- The empty filesystem. -/
def fsEmpty : FS := fun _ => none

/-- The four output paths the spec names. -/
def paths4 : List String :=
  ["assets/product_icons/hobo_cape_icon.png",
   "assets/product_icons/cool_shades_icon.png",
   "assets/product_icons/cardboard_armor_icon.png",
   "assets/product_icons/extra_life_icon.png"]

/- ### Filesystem lemmas -/

/-- The last image written to a path by a trace, if any. -/
def lastWrite : List Event → String → Option Image
  | [], _ => none
  | e :: rest, p =>
      match lastWrite rest p with
      | some v => some v
      | none =>
          match e with
          | .save q img => if p = q then some img else none
          | _ => none

/-- Unfolding lemma: a save event prepends its path to the written paths. -/
theorem savePaths_save (q : String) (img : Image) (rest : List Event) :
    savePaths (Event.save q img :: rest) = q :: savePaths rest := rfl

/-- Unfolding lemma: directory creation writes no file. -/
theorem savePaths_mkdirs (d : String) (rest : List Event) :
    savePaths (Event.mkdirs d :: rest) = savePaths rest := rfl

/-- Unfolding lemma: printing writes no file. -/
theorem savePaths_print (m : String) (rest : List Event) :
    savePaths (Event.print m :: rest) = savePaths rest := rfl

/-- Running a trace leaves a path holding its last write, or the prior
contents when the trace never writes it. -/
theorem applyEvents_eq_lastWrite (t : List Event) (fs : FS) (p : String) :
    applyEvents fs t p = (lastWrite t p).or (fs p) := by
  induction t generalizing fs with
  | nil => rfl
  | cons e rest ih =>
      show applyEvents (applyEvent fs e) rest p = _
      rw [ih]
      cases h : lastWrite rest p with
      | some v => simp [lastWrite, h, Option.or]
      | none =>
          simp only [lastWrite, h]
          cases e with
          | save q img =>
              by_cases hpq : p = q <;> simp [applyEvent, hpq, Option.or]
          | mkdirs d => simp [applyEvent, Option.or]
          | print m => simp [applyEvent, Option.or]

/-- Replaying the very same trace changes nothing: the last write to
each path wins regardless of what the path held before. -/
theorem applyEvents_idem (t : List Event) (fs : FS) :
    applyEvents (applyEvents fs t) t = applyEvents fs t := by
  funext p
  rw [applyEvents_eq_lastWrite t (applyEvents fs t) p, applyEvents_eq_lastWrite t fs p]
  cases lastWrite t p <;> simp [Option.or]

/-- A path the trace never saves to has no last write. -/
theorem lastWrite_eq_none (t : List Event) (p : String) (h : p ∉ savePaths t) :
    lastWrite t p = none := by
  induction t with
  | nil => rfl
  | cons e rest ih =>
      cases e with
      | save q img =>
          rw [savePaths_save] at h
          have hq : ¬p = q := fun hpq => h (hpq ▸ List.mem_cons_self q _)
          have hrest : p ∉ savePaths rest := fun hm => h (List.mem_cons_of_mem _ hm)
          simp [lastWrite, ih hrest, hq]
      | mkdirs d =>
          rw [savePaths_mkdirs] at h
          simp [lastWrite, ih h]
      | print m =>
          rw [savePaths_print] at h
          simp [lastWrite, ih h]

/-- Runs the events of a trace in order against a failure oracle: the
first event the oracle fails on aborts the run, propagating the failing
operation together with the filesystem as it stood at that moment
(neither script catches exceptions, so a raised I/O error terminates
the process). -/
def runEv (bad : Event → Bool) : List Event → FS → Except (Event × FS) FS
  | [], fs => .ok fs
  | e :: rest, fs =>
      if bad e then .error (e, fs) else runEv bad rest (applyEvent fs e)

/-- Fail-fast semantics: a run either completes with every event applied
(none failing), or stops at the first failing event with exactly the
writes of the preceding events on disk — no retry, no rollback. -/
theorem runEv_spec (bad : Event → Bool) (t : List Event) (fs : FS) :
    (runEv bad t fs = .ok (applyEvents fs t) ∧ ∀ e ∈ t, bad e = false) ∨
    (∃ pre e post, t = pre ++ e :: post ∧ (∀ x ∈ pre, bad x = false) ∧
      bad e = true ∧ runEv bad t fs = .error (e, applyEvents fs pre)) := by
  induction t generalizing fs with
  | nil => exact .inl ⟨rfl, by simp⟩
  | cons e rest ih =>
      cases hbad : bad e with
      | true =>
          refine .inr ⟨[], e, rest, rfl, by simp, hbad, ?_⟩
          simp [runEv, hbad, applyEvents]
      | false =>
          rcases ih (applyEvent fs e) with ⟨hok, hall⟩ | ⟨pre, x, post, ht, hpre, hx, herr⟩
          · refine .inl ⟨?_, ?_⟩
            · show runEv bad (e :: rest) fs = _
              rw [runEv, hbad]
              simp only [Bool.false_eq_true, if_false]
              exact hok
            · intro y hy
              rcases List.mem_cons.mp hy with h | h
              · rw [h]; exact hbad
              · exact hall y h
          · refine .inr ⟨e :: pre, x, post, by rw [ht, List.cons_append], ?_, hx, ?_⟩
            · intro y hy
              rcases List.mem_cons.mp hy with h | h
              · rw [h]; exact hbad
              · exact hpre y h
            · show runEv bad (e :: rest) fs = _
              rw [runEv, hbad]
              simp only [Bool.false_eq_true, if_false]
              exact herr

/- ### General development: the canvas center pixel -/

/-- After the rectangle call of `create_icons.py`, before the text call,
the canvas center (128,128) holds exactly the configured fill, opaque:
the center is inside the box [20..236]×[20..236] and outside the 5px
outline band, and integer-box rectangle drawing does not anti-alias. -/
theorem rect_layer_center (font : Font) (n : String) :
    (applyOp font (imageNew 256 256 ⟨0, 0, 0, 0⟩)
      (DrawOp.rect 20 20 236 236 (rgb (colorOf n)) (rgb (255, 255, 255)) 5)).pix 128 128 =
      rgb (colorOf n) := rfl

/-- The final center pixel of a `create_icons.py` icon is the configured
fill exactly when the rendered label's glyphs leave the offset
(128 − text_x, 10) uninked; otherwise the text call overdraws it white.
Which of the two happens is decided by the imaging library's default
font bitmaps, which are not part of this repository. -/
theorem imageA_center (font : Font) (n : String) :
    (imageA font n).pix 128 128 =
      if font (display_name n) (128 - text_x (display_name n)) 10
      then rgb (255, 255, 255) else rgb (colorOf n) := rfl

/-- The center pixel of a `create_product_icons.py` icon is the fixed
rectangle fill (70, 90, 150), opaque. -/
theorem imageB_center (n : String) : (imageB n).pix 128 128 = rgb (70, 90, 150) := rfl

/- ### Claim theorems -/

/-- Modelled from the spec's words (for comparison with the code's
`display_name`): strip a trailing "_icon" suffix from the name, replace
underscores with spaces, and title-case each word. -/
def specLabel (n : String) : String :=
  pyTitle (pyReplace
    ⟨if ("_icon".data).isSuffixOf n.data then n.data.take (n.data.length - 5) else n.data⟩
    "_" " ")

/-- C2: for every icon name in the fixed list, the rendered label equals
the spec's derivation (strip a trailing "_icon" suffix, replace
underscores with spaces, title-case each word); in particular
"hobo_cape_icon" yields "Hobo Cape" and "extra_life_icon" yields
"Extra Life". -/
theorem c2_label_derivation :
    (∀ n ∈ iconsA, display_name n = specLabel n) ∧
    display_name "hobo_cape_icon" = "Hobo Cape" ∧
    display_name "extra_life_icon" = "Extra Life" := by
  refine ⟨?_, by decide, by decide⟩
  decide

/-- Witness for C2 at the concrete name "hobo_cape_icon". -/
theorem c2_label_derivation_witness :
    display_name "hobo_cape_icon" = specLabel "hobo_cape_icon" :=
  c2_label_derivation.1 "hobo_cape_icon" (by decide)

/-- C3: each loop iteration issues exactly one rectangle call — variant
A inset 20px from the 256-canvas edges with a white 5px outline and the
spec's configured fill, variant B inset 50px with a white 3px outline
and its fixed fill — where 236 = 256 − 20 and 206 = 256 − 50. -/
theorem c3_one_rectangle :
    (∀ n ∈ iconsA, (drawOpsA n).filter DrawOp.isRect =
      [DrawOp.rect 20 20 236 236 (rgb (colorOf n)) (rgb (255, 255, 255)) 5]) ∧
    drawOpsB.filter DrawOp.isRect =
      [DrawOp.rect 50 50 206 206 (rgb (70, 90, 150)) (rgb (255, 255, 255)) 3] ∧
    (236 : Nat) = 256 - 20 ∧ (206 : Nat) = 256 - 50 :=
  ⟨fun _ _ => rfl, rfl, rfl, rfl⟩

/-- Witness for C3 at the concrete name "cool_shades_icon". -/
theorem c3_one_rectangle_witness :
    (drawOpsA "cool_shades_icon").filter DrawOp.isRect =
      [DrawOp.rect 20 20 236 236 (rgb (colorOf "cool_shades_icon")) (rgb (255, 255, 255)) 5] :=
  c3_one_rectangle.1 "cool_shades_icon" (by decide)

/-- C4: a complete run of either script writes exactly the four paths
assets/product_icons/{hobo_cape,cool_shades,cardboard_armor,extra_life}_icon.png
(one per spec, all distinct), each holding a 256×256 image, and touches
no other path. -/
theorem c4_four_png_files (font : Font) (fs : FS) :
    savePaths (traceA font) = paths4 ∧
    savePaths traceB = paths4 ∧
    paths4.Nodup ∧
    (∀ p ∈ paths4, ∃ img, runA font fs p = some img ∧ img.width = 256 ∧ img.height = 256) ∧
    (∀ p ∈ paths4, ∃ img, runB fs p = some img ∧ img.width = 256 ∧ img.height = 256) ∧
    (∀ p, p ∉ paths4 → runA font fs p = fs p ∧ runB fs p = fs p) := by
  refine ⟨rfl, rfl, by decide, ?_, ?_, ?_⟩
  · intro p hp
    fin_cases hp
    · exact ⟨imageA font "hobo_cape_icon", rfl, rfl, rfl⟩
    · exact ⟨imageA font "cool_shades_icon", rfl, rfl, rfl⟩
    · exact ⟨imageA font "cardboard_armor_icon", rfl, rfl, rfl⟩
    · exact ⟨imageA font "extra_life_icon", rfl, rfl, rfl⟩
  · intro p hp
    fin_cases hp
    · exact ⟨imageB "hobo_cape_icon", rfl, rfl, rfl⟩
    · exact ⟨imageB "cool_shades_icon", rfl, rfl, rfl⟩
    · exact ⟨imageB "cardboard_armor_icon", rfl, rfl, rfl⟩
    · exact ⟨imageB "extra_life_icon", rfl, rfl, rfl⟩
  · intro p hp
    constructor
    · show applyEvents fs (traceA font) p = fs p
      rw [applyEvents_eq_lastWrite,
        lastWrite_eq_none (traceA font) p (by rw [show savePaths (traceA font) = paths4 from rfl]; exact hp)]
      rfl
    · show applyEvents fs traceB p = fs p
      rw [applyEvents_eq_lastWrite,
        lastWrite_eq_none traceB p (by rw [show savePaths traceB = paths4 from rfl]; exact hp)]
      rfl

/-- Witness for C4 at a written path and an untouched path. -/
theorem c4_four_png_files_witness :
    (∃ img, runA noFont fsEmpty "assets/product_icons/hobo_cape_icon.png" = some img ∧
      img.width = 256 ∧ img.height = 256) ∧
    runB fsEmpty "assets/elsewhere.txt" = fsEmpty "assets/elsewhere.txt" :=
  ⟨(c4_four_png_files noFont fsEmpty).2.2.2.1 "assets/product_icons/hobo_cape_icon.png" (by decide),
   ((c4_four_png_files noFont fsEmpty).2.2.2.2.2 "assets/elsewhere.txt" (by decide)).2⟩

/-- C5: the text call of `create_icons.py` positions the label by the
width heuristic text_width = (label length) × 10 and
text_x = (256 − text_width) floor-divided by 2, at the fixed vertical
position 118; the estimated centers for the four labels are 83, 73, 53
and 78 — character-count estimation, not font metrics. -/
theorem c5_text_position :
    (∀ n ∈ iconsA, drawOpsA n =
      [DrawOp.rect 20 20 236 236 (rgb (colorOf n)) (rgb (255, 255, 255)) 5,
       DrawOp.text (Int.fdiv (256 - ((display_name n).length : Int) * 10) 2) 118
         (display_name n) (rgb (255, 255, 255))]) ∧
    text_x (display_name "hobo_cape_icon") = 83 ∧
    text_x (display_name "cool_shades_icon") = 73 ∧
    text_x (display_name "cardboard_armor_icon") = 53 ∧
    text_x (display_name "extra_life_icon") = 78 :=
  ⟨fun _ _ => rfl, by decide, by decide, by decide, by decide⟩

/-- Witness for C5 at the concrete name "extra_life_icon". -/
theorem c5_text_position_witness :
    drawOpsA "extra_life_icon" =
      [DrawOp.rect 20 20 236 236 (rgb (colorOf "extra_life_icon")) (rgb (255, 255, 255)) 5,
       DrawOp.text (Int.fdiv (256 - ((display_name "extra_life_icon").length : Int) * 10) 2) 118
         (display_name "extra_life_icon") (rgb (255, 255, 255))] :=
  c5_text_position.1 "extra_life_icon" (by decide)

/-- C6: both generators are deterministic pure functions of the fixed
tables, so re-running one replays the identical trace: the second run
overwrites the first run's files with the same contents and the final
filesystem is unchanged; each icon name maps to exactly one output file
assets/product_icons/name.png, and the four paths are distinct. -/
theorem c6_deterministic_idempotent (font : Font) (fs : FS) :
    runA font (runA font fs) = runA font fs ∧
    runB (runB fs) = runB fs ∧
    savePaths (traceA font) = iconsA.map pathOf ∧
    savePaths traceB = iconsB.map pathOf ∧
    (iconsA.map pathOf).Nodup ∧ (iconsB.map pathOf).Nodup :=
  ⟨applyEvents_idem (traceA font) fs, applyEvents_idem traceB fs,
   rfl, rfl, by decide, by decide⟩

/-- C7: in both scripts the directory creation is the first event of the
trace, no later event creates a directory, and the file writes occur
strictly in the order of the fixed name list. -/
theorem c7_sequential_mkdir_first (font : Font) :
    (∃ rest, traceA font = Event.mkdirs "assets/product_icons" :: rest ∧
      rest.all (fun e => !e.isMkdirs) = true ∧
      savePaths rest = iconsA.map pathOf) ∧
    (∃ rest, traceB = Event.mkdirs "assets/product_icons" :: rest ∧
      rest.all (fun e => !e.isMkdirs) = true ∧
      savePaths rest = iconsB.map pathOf) :=
  ⟨⟨_, rfl, rfl, rfl⟩, ⟨_, rfl, rfl, rfl⟩⟩

/-- C8: running either trace against any failure oracle is fail-fast —
either no operation fails and every event is applied, or the run stops
at the first failing operation, propagating it as the error, with
exactly the writes of the operations before it on disk (no retry, no
rollback of already-written files). -/
theorem c8_fail_fast (bad : Event → Bool) (font : Font) (fs : FS) :
    ((runEv bad (traceA font) fs = .ok (applyEvents fs (traceA font)) ∧
        ∀ e ∈ traceA font, bad e = false) ∨
      (∃ pre e post, traceA font = pre ++ e :: post ∧ (∀ x ∈ pre, bad x = false) ∧
        bad e = true ∧ runEv bad (traceA font) fs = .error (e, applyEvents fs pre))) ∧
    ((runEv bad traceB fs = .ok (applyEvents fs traceB) ∧
        ∀ e ∈ traceB, bad e = false) ∨
      (∃ pre e post, traceB = pre ++ e :: post ∧ (∀ x ∈ pre, bad x = false) ∧
        bad e = true ∧ runEv bad traceB fs = .error (e, applyEvents fs pre))) :=
  ⟨runEv_spec bad (traceA font) fs, runEv_spec bad traceB fs⟩

/-- C9: in `create_icons.py`, a name absent from the color table gets
the default gray (100, 100, 100) as the rectangle fill, and every name
of the fixed list gets its configured table color. -/
theorem c9_default_gray :
    (∀ n : String, colors.lookup n = none →
      (drawOpsA n).filter DrawOp.isRect =
        [DrawOp.rect 20 20 236 236 (rgb (100, 100, 100)) (rgb (255, 255, 255)) 5]) ∧
    colorOf "hobo_cape_icon" = (120, 120, 120) ∧
    colorOf "cool_shades_icon" = (50, 50, 50) ∧
    colorOf "cardboard_armor_icon" = (160, 120, 80) ∧
    colorOf "extra_life_icon" = (200, 50, 50) := by
  refine ⟨?_, by decide, by decide, by decide, by decide⟩
  intro n h
  show [DrawOp.rect 20 20 236 236 (rgb (colorOf n)) (rgb (255, 255, 255)) 5] = _
  rw [colorOf, h]
  rfl

/-- Witness for C9 at the concrete unlisted name "mystery_icon". -/
theorem c9_default_gray_witness :
    colors.lookup "mystery_icon" = none ∧
    (drawOpsA "mystery_icon").filter DrawOp.isRect =
      [DrawOp.rect 20 20 236 236 (rgb (100, 100, 100)) (rgb (255, 255, 255)) 5] :=
  ⟨by decide, c9_default_gray.1 "mystery_icon" (by decide)⟩

/-- C10: the pixel content produced by `create_product_icons.py` does
not depend on the icon name — any two names yield the very same image,
a blue (100, 150, 200) background with the fixed (70, 90, 150)
rectangle and its white outline — so runs differ only in the output
path, and the four output paths are distinct. -/
theorem c10_name_independent_pixels :
    (∀ n1 n2 : String, imageB n1 = imageB n2) ∧
    (∀ n ∈ iconsB,
      (imageB n).pix 0 0 = rgb (100, 150, 200) ∧
      (imageB n).pix 128 128 = rgb (70, 90, 150) ∧
      (imageB n).pix 50 50 = rgb (255, 255, 255)) ∧
    (iconsB.map pathOf).Nodup :=
  ⟨fun _ _ => rfl, fun _ _ => ⟨rfl, rfl, rfl⟩, by decide⟩

/-- Witness for C10 at the concrete name "cool_shades_icon". -/
theorem c10_name_independent_pixels_witness :
    (imageB "cool_shades_icon").pix 0 0 = rgb (100, 150, 200) ∧
    (imageB "cool_shades_icon").pix 128 128 = rgb (70, 90, 150) ∧
    (imageB "cool_shades_icon").pix 50 50 = rgb (255, 255, 255) :=
  c10_name_independent_pixels.2.1 "cool_shades_icon" (by decide)
